import Mathlib

/-!
Verification of the forecasting subsystem of the madrid-housing-portal
repository (`app/services/forecasting.py`, `app/database.py`,
`app/models/housing.py`), as a shallow embedding in Lean 4.

Numeric values are modelled over `ℚ` (real-number abstraction of the
Python floats).  Python's `round(x, 2)` is modelled as exact two-decimal
rounding with ties to even (`round2` below).  External library
collaborators (sklearn's least-squares fit, numpy's `std`, statsmodels'
SARIMAX) are modelled as follows: the degree-2 least-squares polynomial
fit is implemented exactly over `ℚ` via the normal equations
(`polyfit2`); the residual standard deviation (a square root, irrational
in general) is passed as a nonnegative parameter `sigma`; the SARIMAX
fit outcome is a parameter of type `Option SarimaNative`, `none`
modelling the fit/forecast raising an exception.
-/

/-- A quarterly period, mirroring `pd.Period(freq="Q")`: a calendar year
and a quarter in 1..4. -/
structure Period where
  year : ℕ
  quarter : ℕ
deriving DecidableEq, Repr

/-- Successor period: `pd.Period + 1` for quarterly frequency.  Quarter 4
of a year is followed by quarter 1 of the next year. -/
def periodSucc (p : Period) : Period :=
  if p.quarter = 4 then ⟨p.year + 1, 1⟩ else ⟨p.year, p.quarter + 1⟩

/-- Embeds `_next_periods`: the `n` periods strictly after `last`, in order
(`[last + i for i in range(1, n + 1)]`). -/
def nextPeriods (last : Period) (n : ℕ) : List Period :=
  (List.range n).map (fun i => periodSucc^[i + 1] last)

/-- One forecast row as produced by the three models: the dict
`{year, quarter, predicted_price_m2, lower_bound, upper_bound,
confidence_level}`. -/
structure ForecastPoint where
  year : ℕ
  quarter : ℕ
  predicted_price_m2 : ℚ
  lower_bound : ℚ
  upper_bound : ℚ
  confidence_level : ℚ
deriving DecidableEq, Repr

/-- Round-half-to-even to an integer (Python's `round(x)` at the exact
rational level). -/
def rhe (x : ℚ) : ℤ :=
  let f := ⌊x⌋
  if x - f < 1 / 2 then f
  else if (1 : ℚ) / 2 < x - f then f + 1
  else if f % 2 = 0 then f else f + 1

/-- Python's `round(x, 2)`: round to two decimal places, ties to even. -/
def round2 (x : ℚ) : ℚ := (rhe (100 * x) : ℚ) / 100

lemma rhe_ge_floor (x : ℚ) : ⌊x⌋ ≤ rhe x := by
  unfold rhe; dsimp only; split_ifs <;> omega

lemma rhe_le_floor_add_one (x : ℚ) : rhe x ≤ ⌊x⌋ + 1 := by
  unfold rhe; dsimp only; split_ifs <;> omega

lemma rhe_mono {x y : ℚ} (h : x ≤ y) : rhe x ≤ rhe y := by
  rcases lt_or_eq_of_le (Int.floor_le_floor h) with hf | hf
  · calc rhe x ≤ ⌊x⌋ + 1 := rhe_le_floor_add_one x
    _ ≤ ⌊y⌋ := by omega
    _ ≤ rhe y := rhe_ge_floor y
  · have hxy : x - ⌊x⌋ ≤ y - ⌊y⌋ := by rw [← hf]; linarith
    unfold rhe
    dsimp only
    rw [← hf]
    split_ifs <;> first | omega | linarith

lemma rhe_intCast (n : ℤ) : rhe (n : ℚ) = n := by
  unfold rhe
  have h1 : ⌊(n : ℚ)⌋ = n := Int.floor_intCast n
  simp [h1]

lemma rhe_zero : rhe 0 = 0 := by
  have := rhe_intCast 0
  simpa using this

lemma rhe_nonneg {x : ℚ} (h : 0 ≤ x) : 0 ≤ rhe x := by
  have := rhe_mono h
  rw [rhe_zero] at this
  exact this

lemma round2_mono {x y : ℚ} (h : x ≤ y) : round2 x ≤ round2 y := by
  unfold round2
  have h100 : (100 : ℚ) * x ≤ 100 * y := by linarith
  have := rhe_mono h100
  have hc : ((rhe (100 * x) : ℚ)) ≤ ((rhe (100 * y) : ℚ)) := by exact_mod_cast this
  linarith

lemma round2_nonneg {x : ℚ} (h : 0 ≤ x) : 0 ≤ round2 x := by
  unfold round2
  have : (0 : ℚ) ≤ (rhe (100 * x) : ℚ) := by
    exact_mod_cast rhe_nonneg (by linarith)
  linarith

/-- A rational is a two-decimal value when it is an integer multiple of
1/100 — the shape of every numeric field of a model-emitted point. -/
def TwoDecimal (x : ℚ) : Prop := ∃ n : ℤ, x = (n : ℚ) / 100

lemma round2_eq_self {x : ℚ} (h : TwoDecimal x) : round2 x = x := by
  obtain ⟨n, rfl⟩ := h
  unfold round2
  have : (100 : ℚ) * ((n : ℚ) / 100) = (n : ℚ) := by ring
  rw [this, rhe_intCast]

/-- A district's quarterly price series: the pandas Series built by
`_load_time_series` — ordered (period, price) pairs. -/
abbrev TimeSeries := List (Period × ℚ)

/-- Embeds `ts.values`: the prices, in index order. -/
def tsValues (ts : TimeSeries) : List ℚ := ts.map Prod.snd

/-- Embeds `ts.index[-1]`: the last period of the series (default irrelevant,
used only on nonempty series). -/
def lastPeriod (ts : TimeSeries) : Period := (ts.getLastD (⟨0, 0⟩, 0)).1

/-- Sum of i^k over the positions `i₀, i₀+1, ...` of a list (used with i₀ = 0
for the moment sums of the index column 0..n-1). -/
def idxPowSum (k : ℕ) : ℕ → List ℚ → ℚ
  | _, [] => 0
  | i, _ :: ys => (i : ℚ) ^ k + idxPowSum k (i + 1) ys

/-- Sum of i^k · y_i over a list with positions starting at i₀. -/
def idxWeightedSum (k : ℕ) : ℕ → List ℚ → ℚ
  | _, [] => 0
  | i, yv :: ys => (i : ℚ) ^ k * yv + idxWeightedSum k (i + 1) ys

/-- Coefficients c0 + c1·x + c2·x² of the fitted degree-2 polynomial. -/
structure Poly2 where
  c0 : ℚ
  c1 : ℚ
  c2 : ℚ
deriving DecidableEq, Repr

def Poly2.eval (beta : Poly2) (x : ℚ) : ℚ := beta.c0 + beta.c1 * x + beta.c2 * x ^ 2

/-- The exact degree-2 least-squares fit of y against indices 0..n-1,
solved from the normal equations by Cramer's rule.  Models
`PolynomialFeatures(degree=2)` + `LinearRegression().fit` (whose
predictions are the unique least-squares projection when n ≥ 3; the
moment matrix is then invertible).  When the determinant is zero the
result is junk (division by zero in `ℚ` yields 0); no claim uses that
case. -/
def polyfit2 (y : List ℚ) : Poly2 :=
  let s0 := idxPowSum 0 0 y
  let s1 := idxPowSum 1 0 y
  let s2 := idxPowSum 2 0 y
  let s3 := idxPowSum 3 0 y
  let s4 := idxPowSum 4 0 y
  let t0 := idxWeightedSum 0 0 y
  let t1 := idxWeightedSum 1 0 y
  let t2 := idxWeightedSum 2 0 y
  let det := s0 * (s2 * s4 - s3 * s3) - s1 * (s1 * s4 - s2 * s3) + s2 * (s1 * s3 - s2 * s2)
  { c0 := (t0 * (s2 * s4 - s3 * s3) - s1 * (t1 * s4 - s3 * t2) + s2 * (t1 * s3 - s2 * t2)) / det
    c1 := (s0 * (t1 * s4 - s3 * t2) - t0 * (s1 * s4 - s3 * s2) + s2 * (s1 * t2 - t1 * s2)) / det
    c2 := (s0 * (s2 * t2 - t1 * s3) - s1 * (s1 * t2 - t1 * s2) + t0 * (s1 * s3 - s2 * s2)) / det }

/-- Embeds `residuals = y - model.predict(X_poly)`: training residuals of the
fitted polynomial at indices 0..n-1. -/
def residuals (y : List ℚ) : List ℚ :=
  let beta := polyfit2 y
  y.enum.map (fun p => p.2 - beta.eval (p.1 : ℚ))

/-- The square of `np.std(residuals)` (population variance of the
residuals); numpy's `sigma` is its square root. -/
def sigmaSq (y : List ℚ) : ℚ :=
  ((residuals y).map (fun r => r ^ 2)).sum / (y.length : ℚ)

/-- The class constant `CONFIDENCE = 0.95`. -/
def CONFIDENCE : ℚ := 0.95

/-- The local `z = 1.96` (95 % two-sided normal approximation). -/
def zScore : ℚ := 1.96

/-- The class constant `MIN_POINTS_SARIMA = 12`. -/
def MIN_POINTS_SARIMA : ℕ := 12

/-- One emitted forecast dict, shared shape of `_linear_forecast` and
`_sarima_forecast` rows: predicted and lower bound are clamped at 0 then
rounded to two decimals; the upper bound is rounded but never clamped. -/
def mkPoint (p : Period) (pred lower upper conf : ℚ) : ForecastPoint :=
  { year := p.year
    quarter := p.quarter
    predicted_price_m2 := round2 (max 0 pred)
    lower_bound := round2 (max 0 lower)
    upper_bound := round2 upper
    confidence_level := conf }

/-- Embeds `_linear_forecast`: fit the degree-2 polynomial, extrapolate at
indices n..n+periods-1, bounds = prediction ± z·sigma.  `sigma` is the
external numpy value `np.std(residuals)` = √(`sigmaSq`), passed as a
parameter since it is irrational in general. -/
def linearForecast (ts : TimeSeries) (periods : ℕ) (sigma : ℚ) : List ForecastPoint :=
  let beta := polyfit2 (tsValues ts)
  let n := ts.length
  ((nextPeriods (lastPeriod ts) periods).enum).map (fun ip =>
    let pred := beta.eval ((n : ℚ) + (ip.1 : ℚ))
    mkPoint ip.2 pred (pred - zScore * sigma) (pred + zScore * sigma) CONFIDENCE)

/-- Native output of a successful statsmodels SARIMAX fit:
`predicted_mean` and the two columns of `conf_int(alpha=0.05)`, indexed
by forecast step. -/
structure SarimaNative where
  means : ℕ → ℚ
  ciLower : ℕ → ℚ
  ciUpper : ℕ → ℚ

/-- Embeds `_sarima_forecast`: on a successful fit (`some r`) build points from
the native means and interval; on any exception during fit/forecast
(`none`), fall back to `_linear_forecast` on the same series and
horizon. -/
def sarimaForecast (ts : TimeSeries) (periods : ℕ) (fit : Option SarimaNative)
    (sigma : ℚ) : List ForecastPoint :=
  match fit with
  | some r =>
      ((nextPeriods (lastPeriod ts) periods).enum).map (fun ip =>
        mkPoint ip.2 (r.means ip.1) (r.ciLower ip.1) (r.ciUpper ip.1) CONFIDENCE)
  | none => linearForecast ts periods sigma

/-- Embeds `_ensemble_forecast`: zip the two sequences, blend each numeric
field with weights w_linear = 1 - w_sarima, round to two decimals; year,
quarter and confidence_level are taken from the linear (trend) point. -/
def ensembleForecast (linear sarima : List ForecastPoint)
    (w_sarima : ℚ := 0.65) : List ForecastPoint :=
  let w_linear := 1 - w_sarima
  (linear.zip sarima).map (fun ls =>
    { year := ls.1.year
      quarter := ls.1.quarter
      predicted_price_m2 :=
        round2 (w_linear * ls.1.predicted_price_m2 + w_sarima * ls.2.predicted_price_m2)
      lower_bound := round2 (w_linear * ls.1.lower_bound + w_sarima * ls.2.lower_bound)
      upper_bound := round2 (w_linear * ls.1.upper_bound + w_sarima * ls.2.upper_bound)
      confidence_level := ls.1.confidence_level })

/-- The model-running section of `_forecast_district`: linear always;
sarima gated on n ≥ MIN_POINTS_SARIMA, else reusing the linear result;
ensemble of the two. -/
def forecastModels (ts : TimeSeries) (periods : ℕ) (fit : Option SarimaNative)
    (sigma : ℚ) : List ForecastPoint × List ForecastPoint × List ForecastPoint :=
  let linear_fc := linearForecast ts periods sigma
  let sarima_fc :=
    if MIN_POINTS_SARIMA ≤ ts.length then sarimaForecast ts periods fit sigma
    else linear_fc
  let ensemble_fc := ensembleForecast linear_fc sarima_fc
  (linear_fc, sarima_fc, ensemble_fc)

/-- The `districts` table row (the fields the core uses). -/
structure DistrictRow where
  id : ℕ
  code : String
deriving DecidableEq, Repr

/-- The `sale_prices` table row (the fields `_load_time_series` uses). -/
structure SaleRow where
  district_id : ℕ
  property_type : String
  year : ℕ
  quarter : ℕ
  price_per_m2 : ℚ
deriving DecidableEq, Repr

/-- The `price_forecasts` table row (the `PriceForecast` model, whose
`uq_forecast` constraint keys (district_id, forecast_year,
forecast_quarter, model_name)).  `generated_at` is a natural-number
timestamp. -/
structure ForecastRow where
  district_id : ℕ
  model_name : String
  forecast_year : ℕ
  forecast_quarter : ℕ
  predicted_price_m2 : ℚ
  lower_bound : ℚ
  upper_bound : ℚ
  confidence_level : ℚ
  generated_at : ℕ
deriving DecidableEq, Repr

/-- Database state: the three tables the forecasting service touches. -/
structure DB where
  districts : List DistrictRow
  sale_prices : List SaleRow
  price_forecasts : List ForecastRow
deriving DecidableEq, Repr

/-- Insert into a sorted list before the first element not below `a`
(auxiliary for the stable sort modelling SQL ORDER BY). -/
def insertLe {α : Type} (le : α → α → Bool) (a : α) : List α → List α
  | [] => [a]
  | b :: bs => if le a b then a :: b :: bs else b :: insertLe le a bs

/-- Stable insertion sort, modelling SQL ORDER BY. -/
def sortByKey {α : Type} (le : α → α → Bool) (l : List α) : List α :=
  l.foldr (insertLe le) []

/-- ORDER BY `(year, quarter)` on sale rows. -/
def saleLe (r s : SaleRow) : Bool :=
  r.year < s.year || (r.year == s.year && r.quarter ≤ s.quarter)

/-- Embeds `_load_time_series`: the district's sale rows with property_type
"all", ordered by (year, quarter), as (period, price) pairs. -/
def loadTimeSeries (db : DB) (district_id : ℕ) : TimeSeries :=
  (sortByKey saleLe (db.sale_prices.filter
      (fun r => r.district_id == district_id && r.property_type == "all"))).map
    (fun r => (⟨r.year, r.quarter⟩, r.price_per_m2))

/-- Replace the first element satisfying `p` (the SQLAlchemy `.first()`
row that the update branch mutates in place). -/
def updateFirst {α : Type} (p : α → Bool) (f : α → α) : List α → List α
  | [] => []
  | x :: xs => if p x then f x :: xs else x :: updateFirst p f xs

/-- The filter of `_save_forecast`'s lookup query — the `uq_forecast`
key. -/
def keyMatch (district_id : ℕ) (model_name : String) (year quarter : ℕ)
    (r : ForecastRow) : Bool :=
  r.district_id == district_id && r.model_name == model_name &&
    r.forecast_year == year && r.forecast_quarter == quarter

/-- Embeds `_save_forecast`: if a row with the (district, model, year, quarter)
key exists, overwrite its three numeric forecast fields and refresh
`generated_at` to `now` (`confidence_level` is left as stored);
otherwise insert a new row. -/
def saveForecast (db : DB) (district_id : ℕ) (model_name : String)
    (row : ForecastPoint) (now : ℕ) : DB :=
  let p := keyMatch district_id model_name row.year row.quarter
  if db.price_forecasts.any p then
    { db with price_forecasts := updateFirst p (fun r =>
        { r with
          predicted_price_m2 := row.predicted_price_m2
          lower_bound := row.lower_bound
          upper_bound := row.upper_bound
          generated_at := now }) db.price_forecasts }
  else
    { db with price_forecasts := db.price_forecasts ++
        [{ district_id := district_id
           model_name := model_name
           forecast_year := row.year
           forecast_quarter := row.quarter
           predicted_price_m2 := row.predicted_price_m2
           lower_bound := row.lower_bound
           upper_bound := row.upper_bound
           confidence_level := row.confidence_level
           generated_at := now }] }

/-- The inner persistence loop of `_forecast_district` for one model's
point list. -/
def saveAll (db : DB) (district_id : ℕ) (model_name : String)
    (fc : List ForecastPoint) (now : ℕ) : DB :=
  fc.foldl (fun a r => saveForecast a district_id model_name r now) db

/-- Embeds `_forecast_district`: load the series; fewer than 4 points → empty
result and untouched storage; otherwise run the three models, persist
all three sets in order, and return the ensemble rows. -/
def forecastDistrictDB (db : DB) (d : DistrictRow) (periods : ℕ)
    (fit : Option SarimaNative) (sigma : ℚ) (now : ℕ) : DB × List ForecastPoint :=
  let ts := loadTimeSeries db d.id
  if ts.length < 4 then (db, [])
  else
    let fcs := forecastModels ts periods fit sigma
    let db1 := saveAll db d.id "linear" fcs.1 now
    let db2 := saveAll db1 d.id "sarima" fcs.2.1 now
    let db3 := saveAll db2 d.id "ensemble" fcs.2.2 now
    (db3, fcs.2.2)

/-- Embeds `forecast_district` (public): look up the district by code; unknown
code → warning and empty result; otherwise `_forecast_district` inside
one committing session. -/
def forecastDistrictByCode (db : DB) (code : String) (periods : ℕ)
    (fit : Option SarimaNative) (sigma : ℚ) (now : ℕ) : DB × List ForecastPoint :=
  match db.districts.find? (fun d => d.code == code) with
  | none => (db, [])
  | some d => forecastDistrictDB db d periods fit sigma now

/-- One loop iteration of `forecast_all_districts` for a single
district.  `persistFails d.id = true` models the storage layer raising a
PersistenceFailure while writing that district's rows; the exception
propagates out of `_forecast_district` (nothing in the loop catches
it). -/
def forecastDistrictStep (persistFails : ℕ → Bool) (db : DB) (d : DistrictRow)
    (periods : ℕ) (fit : Option SarimaNative) (sigma : ℚ) (now : ℕ) :
    Except Unit (DB × List ForecastPoint) :=
  if persistFails d.id then Except.error ()
  else Except.ok (forecastDistrictDB db d periods fit sigma now)

/-- The `for district in districts` loop of `forecast_all_districts`,
threading the one shared session state through the districts in order
and collecting the code→rows mapping. -/
def forecastLoop (persistFails : ℕ → Bool) (periods : ℕ)
    (fits : ℕ → Option SarimaNative) (sigmas : ℕ → ℚ) (now : ℕ) :
    DB → List DistrictRow → Except Unit (DB × List (String × List ForecastPoint))
  | db, [] => Except.ok (db, [])
  | db, d :: ds =>
    match forecastDistrictStep persistFails db d periods (fits d.id) (sigmas d.id) now with
    | Except.error e => Except.error e
    | Except.ok (db1, rows) =>
      match forecastLoop persistFails periods fits sigmas now db1 ds with
      | Except.error e => Except.error e
      | Except.ok (db2, rest) => Except.ok (db2, (d.code, rows) :: rest)

/-- Embeds `forecast_all_districts`: run `_forecast_district` for every
district inside a single `db_session`.  On success the session commits
and the final state is returned; if any district's iteration raises, the
exception propagates, `db_session` rolls the whole session back, and no
state is committed (modelled by `Except.error` carrying no state). -/
def forecastAllDistricts (persistFails : ℕ → Bool) (db : DB) (periods : ℕ)
    (fits : ℕ → Option SarimaNative) (sigmas : ℕ → ℚ) (now : ℕ) :
    Except Unit (DB × List (String × List ForecastPoint)) :=
  forecastLoop persistFails periods fits sigmas now db db.districts

/-- ORDER BY `(forecast_year, forecast_quarter)` on forecast rows. -/
def forecastRowLe (r s : ForecastRow) : Bool :=
  r.forecast_year < s.forecast_year ||
    (r.forecast_year == s.forecast_year && r.forecast_quarter ≤ s.forecast_quarter)

/-- Embeds `get_stored_forecasts`: optional district filter — applied only when
a code was passed, is non-empty (Python truthiness) and matches a
district row — then the required model filter, ordered by
(forecast_year, forecast_quarter).  Returned rows stand for the dicts
produced by `_forecast_to_dict`, one per row. -/
def getStoredForecasts (db : DB) (district_code : Option String)
    (model_name : String) : List ForecastRow :=
  let q0 := db.price_forecasts
  let q1 :=
    match district_code with
    | none => q0
    | some code =>
      if code == "" then q0
      else
        match db.districts.find? (fun d : DistrictRow => d.code == code) with
        | some d => q0.filter (fun r => r.district_id == d.id)
        | none => q0
  sortByKey forecastRowLe (q1.filter (fun r => r.model_name == model_name))

lemma enum_map_range {β : Type} (n : ℕ) (g : ℕ → β) :
    ((List.range n).map g).enum = (List.range n).map (fun i => (i, g i)) := by
  apply List.ext_getElem?
  intro i
  rw [List.getElem?_enum, List.getElem?_map, List.getElem?_map]
  by_cases h : i < n
  · rw [List.getElem?_range h]; rfl
  · have hnone : (List.range n)[i]? = none :=
      List.getElem?_eq_none (by simpa using Nat.le_of_not_lt h)
    simp [hnone]

lemma linearForecast_eq_map (ts : TimeSeries) (h : ℕ) (sigma : ℚ) :
    linearForecast ts h sigma =
      (List.range h).map (fun i =>
        mkPoint (periodSucc^[i + 1] (lastPeriod ts))
          ((polyfit2 (tsValues ts)).eval ((ts.length : ℚ) + (i : ℚ)))
          ((polyfit2 (tsValues ts)).eval ((ts.length : ℚ) + (i : ℚ)) - zScore * sigma)
          ((polyfit2 (tsValues ts)).eval ((ts.length : ℚ) + (i : ℚ)) + zScore * sigma)
          CONFIDENCE) := by
  unfold linearForecast nextPeriods
  rw [enum_map_range, List.map_map]
  rfl

lemma sarimaNative_eq_map (ts : TimeSeries) (h : ℕ) (r : SarimaNative) (sigma : ℚ) :
    sarimaForecast ts h (some r) sigma =
      (List.range h).map (fun i =>
        mkPoint (periodSucc^[i + 1] (lastPeriod ts))
          (r.means i) (r.ciLower i) (r.ciUpper i) CONFIDENCE) := by
  have hdef : sarimaForecast ts h (some r) sigma =
      ((nextPeriods (lastPeriod ts) h).enum).map (fun ip =>
        mkPoint ip.2 (r.means ip.1) (r.ciLower ip.1) (r.ciUpper ip.1) CONFIDENCE) := rfl
  rw [hdef]
  unfold nextPeriods
  rw [enum_map_range, List.map_map]
  rfl

lemma length_linearForecast (ts : TimeSeries) (h : ℕ) (sigma : ℚ) :
    (linearForecast ts h sigma).length = h := by
  rw [linearForecast_eq_map]; simp

/-- C3: when the SARIMA fit/forecast raises (`fit = none`), the seasonal
forecast does not raise and is pointwise identical to the trend model's
forecast for the same series and horizon; likewise, when the series has
fewer than 12 observations, the sarima component produced by
`_forecast_district` is the linear component itself. -/
theorem c3_sarima_fallback (ts : TimeSeries) (h : ℕ) (fit : Option SarimaNative)
    (sigma : ℚ) :
    (fit = none → sarimaForecast ts h fit sigma = linearForecast ts h sigma) ∧
    (ts.length < MIN_POINTS_SARIMA →
      (forecastModels ts h fit sigma).2.1 = (forecastModels ts h fit sigma).1) := by
  constructor
  · rintro rfl; rfl
  · intro hlt
    unfold forecastModels
    dsimp only
    rw [if_neg (Nat.not_le.mpr hlt)]

/-- A rising 4-point demo series ending at 2020Q4 (used by witnesses). -/
def tsUp : TimeSeries :=
  [(⟨2020, 1⟩, 0), (⟨2020, 2⟩, 1), (⟨2020, 3⟩, 2), (⟨2020, 4⟩, 3)]

/-- Witness for C3 at a concrete 4-point series (fit raising, and the
series also below the 12-point SARIMA gate). -/
theorem c3_sarima_fallback_witness :
    sarimaForecast tsUp 2 none 0 = linearForecast tsUp 2 0 ∧
    (forecastModels tsUp 2 none 0).2.1 = (forecastModels tsUp 2 none 0).1 :=
  ⟨(c3_sarima_fallback tsUp 2 none 0).1 rfl,
   (c3_sarima_fallback tsUp 2 none 0).2 (by norm_num [tsUp, MIN_POINTS_SARIMA])⟩

/-- C5: for every series with at least 4 observations, every horizon h
and any residual sigma, the trend model returns exactly h points; the
i-th point's (year, quarter) is the (i+1)-st successor of the series'
last period, so the emitted periods are the h quarters immediately
following the last period, strictly sequential; and the period successor
follows quarter 4 of a year with quarter 1 of the next year. -/
theorem c5_trend_horizon_periods (ts : TimeSeries) (h : ℕ) (sigma : ℚ)
    (hn : 4 ≤ ts.length) :
    (linearForecast ts h sigma).length = h ∧
    (∀ i, i < h →
      ((linearForecast ts h sigma)[i]?.map (fun pt => (pt.year, pt.quarter))) =
        some ((periodSucc^[i + 1] (lastPeriod ts)).year,
          (periodSucc^[i + 1] (lastPeriod ts)).quarter)) ∧
    (∀ p : Period, p.quarter = 4 → periodSucc p = ⟨p.year + 1, 1⟩) := by
  refine ⟨length_linearForecast ts h sigma, ?_, ?_⟩
  · intro i hi
    rw [linearForecast_eq_map, List.getElem?_map, List.getElem?_range hi]
    simp [mkPoint]
  · intro p hp
    simp [periodSucc, hp]

/-- Witness for C5: a 4-point series ending at 2020Q4, horizon 2; the
two points cover 2021Q1 and 2021Q2. -/
theorem c5_trend_horizon_periods_witness :
    (linearForecast tsUp 2 0).length = 2 ∧
    (∀ i, i < 2 →
      ((linearForecast tsUp 2 0)[i]?.map (fun pt => (pt.year, pt.quarter))) =
        some ((periodSucc^[i + 1] (lastPeriod tsUp)).year,
          (periodSucc^[i + 1] (lastPeriod tsUp)).quarter)) ∧
    (∀ p : Period, p.quarter = 4 → periodSucc p = ⟨p.year + 1, 1⟩) :=
  c5_trend_horizon_periods tsUp 2 0 (by norm_num [tsUp])

/-- C10: calling `get_stored_forecasts` with a district code that
matches no district row silently drops the district filter: the result
is identical to the unfiltered (all-districts) query for that model. -/
theorem c10_unknown_district_unfiltered (db : DB) (code : String) (model_name : String)
    (hf : db.districts.find? (fun d : DistrictRow => d.code == code) = none) :
    getStoredForecasts db (some code) model_name =
      getStoredForecasts db none model_name := by
  unfold getStoredForecasts
  dsimp only
  by_cases hc : code == ""
  · rw [if_pos hc]
  · rw [if_neg hc, hf]

def db10 : DB :=
  { districts := [⟨1, "01"⟩]
    sale_prices := []
    price_forecasts :=
      [{ district_id := 1, model_name := "ensemble", forecast_year := 2025,
         forecast_quarter := 1, predicted_price_m2 := 1, lower_bound := 0,
         upper_bound := 2, confidence_level := 19 / 20, generated_at := 0 },
       { district_id := 2, model_name := "ensemble", forecast_year := 2024,
         forecast_quarter := 3, predicted_price_m2 := 3, lower_bound := 2,
         upper_bound := 4, confidence_level := 19 / 20, generated_at := 0 }] }

/-- Witness for C10: code "99" matches no district of `db10`; the
filtered query equals the all-districts query. -/
theorem c10_unknown_district_unfiltered_witness :
    getStoredForecasts db10 (some "99") "ensemble" =
      getStoredForecasts db10 none "ensemble" :=
  c10_unknown_district_unfiltered db10 "99" "ensemble" (by decide)

/-- C6: when `forecast_district` resolves a district whose loaded series
has fewer than 4 observations, it returns an empty list and leaves the
database untouched — no forecast row is created or modified, and no
error is raised (the function is total and returns normally). -/
theorem c6_insufficient_data_empty (db : DB) (code : String) (d : DistrictRow)
    (periods : ℕ) (fit : Option SarimaNative) (sigma : ℚ) (now : ℕ)
    (hfind : db.districts.find? (fun x : DistrictRow => x.code == code) = some d)
    (hlen : (loadTimeSeries db d.id).length < 4) :
    forecastDistrictByCode db code periods fit sigma now = (db, []) := by
  unfold forecastDistrictByCode
  rw [hfind]
  unfold forecastDistrictDB
  dsimp only
  rw [if_pos hlen]

def db6 : DB :=
  { districts := [⟨1, "01"⟩]
    sale_prices :=
      [{ district_id := 1, property_type := "all", year := 2020, quarter := 1, price_per_m2 := 3500 },
       { district_id := 1, property_type := "all", year := 2020, quarter := 2, price_per_m2 := 3550 },
       { district_id := 1, property_type := "all", year := 2020, quarter := 3, price_per_m2 := 3600 }]
    price_forecasts := [] }

/-- Witness for C6: district "01" of `db6` has a 3-point series; the
call returns an empty list and the unchanged database. -/
theorem c6_insufficient_data_empty_witness :
    forecastDistrictByCode db6 "01" 4 none 0 0 = (db6, []) :=
  c6_insufficient_data_empty db6 "01" ⟨1, "01"⟩ 4 none 0 0 (by decide) (by decide)

lemma mkPoint_pred_nonneg (p : Period) (pred lower upper conf : ℚ) :
    0 ≤ (mkPoint p pred lower upper conf).predicted_price_m2 :=
  round2_nonneg (le_max_left 0 pred)

lemma mkPoint_lower_nonneg (p : Period) (pred lower upper conf : ℚ) :
    0 ≤ (mkPoint p pred lower upper conf).lower_bound :=
  round2_nonneg (le_max_left 0 lower)

lemma linearForecast_mem_nonneg {ts : TimeSeries} {h : ℕ} {sigma : ℚ}
    {pt : ForecastPoint} (hpt : pt ∈ linearForecast ts h sigma) :
    0 ≤ pt.predicted_price_m2 ∧ 0 ≤ pt.lower_bound := by
  rw [linearForecast_eq_map] at hpt
  obtain ⟨i, -, rfl⟩ := List.mem_map.mp hpt
  exact ⟨mkPoint_pred_nonneg _ _ _ _ _, mkPoint_lower_nonneg _ _ _ _ _⟩

lemma sarimaForecast_mem_nonneg {ts : TimeSeries} {h : ℕ}
    {fit : Option SarimaNative} {sigma : ℚ} {pt : ForecastPoint}
    (hpt : pt ∈ sarimaForecast ts h fit sigma) :
    0 ≤ pt.predicted_price_m2 ∧ 0 ≤ pt.lower_bound := by
  cases fit with
  | none => exact linearForecast_mem_nonneg hpt
  | some r =>
    rw [sarimaNative_eq_map] at hpt
    obtain ⟨i, -, rfl⟩ := List.mem_map.mp hpt
    exact ⟨mkPoint_pred_nonneg _ _ _ _ _, mkPoint_lower_nonneg _ _ _ _ _⟩

lemma ensembleForecast_mem_nonneg {l s : List ForecastPoint} {w : ℚ}
    (hw0 : 0 ≤ w) (hw1 : w ≤ 1)
    (hl : ∀ q ∈ l, 0 ≤ q.predicted_price_m2 ∧ 0 ≤ q.lower_bound)
    (hs : ∀ q ∈ s, 0 ≤ q.predicted_price_m2 ∧ 0 ≤ q.lower_bound)
    {pt : ForecastPoint} (hpt : pt ∈ ensembleForecast l s w) :
    0 ≤ pt.predicted_price_m2 ∧ 0 ≤ pt.lower_bound := by
  unfold ensembleForecast at hpt
  obtain ⟨ls, hmem, rfl⟩ := List.mem_map.mp hpt
  obtain ⟨h1, h2⟩ := List.of_mem_zip hmem
  obtain ⟨hl1, hl2⟩ := hl _ h1
  obtain ⟨hs1, hs2⟩ := hs _ h2
  constructor
  · exact round2_nonneg (add_nonneg (mul_nonneg (by linarith) hl1) (mul_nonneg hw0 hs1))
  · exact round2_nonneg (add_nonneg (mul_nonneg (by linarith) hl2) (mul_nonneg hw0 hs2))

lemma forecastModels_sarima_mem_nonneg {ts : TimeSeries} {h : ℕ}
    {fit : Option SarimaNative} {sigma : ℚ} {pt : ForecastPoint}
    (hm : pt ∈ (forecastModels ts h fit sigma).2.1) :
    0 ≤ pt.predicted_price_m2 ∧ 0 ≤ pt.lower_bound := by
  by_cases h12 : MIN_POINTS_SARIMA ≤ ts.length
  · have hcomp : (forecastModels ts h fit sigma).2.1 = sarimaForecast ts h fit sigma := by
      unfold forecastModels; dsimp only; rw [if_pos h12]
    rw [hcomp] at hm
    exact sarimaForecast_mem_nonneg hm
  · have hcomp : (forecastModels ts h fit sigma).2.1 = linearForecast ts h sigma := by
      unfold forecastModels; dsimp only; rw [if_neg h12]
    rw [hcomp] at hm
    exact linearForecast_mem_nonneg hm

/-- C9: every point emitted by any of the three models — linear, sarima
(native or fallback), ensemble — has a nonnegative predicted price and a
nonnegative lower bound, for every input series, horizon, fit outcome
and residual sigma. -/
theorem c9_nonneg (ts : TimeSeries) (h : ℕ) (fit : Option SarimaNative) (sigma : ℚ)
    (pt : ForecastPoint)
    (hmem : pt ∈ (forecastModels ts h fit sigma).1 ∨
      pt ∈ (forecastModels ts h fit sigma).2.1 ∨
      pt ∈ (forecastModels ts h fit sigma).2.2) :
    0 ≤ pt.predicted_price_m2 ∧ 0 ≤ pt.lower_bound := by
  rcases hmem with hm | hm | hm
  · exact linearForecast_mem_nonneg hm
  · exact forecastModels_sarima_mem_nonneg hm
  · have h22 : (forecastModels ts h fit sigma).2.2 =
        ensembleForecast (forecastModels ts h fit sigma).1
          (forecastModels ts h fit sigma).2.1 := rfl
    rw [h22] at hm
    refine ensembleForecast_mem_nonneg (by norm_num) (by norm_num) ?_ ?_ hm
    · intro q hq
      exact linearForecast_mem_nonneg hq
    · intro q hq
      exact forecastModels_sarima_mem_nonneg hq

def ptUp : ForecastPoint :=
  { year := 2021, quarter := 1, predicted_price_m2 := 4, lower_bound := 4,
    upper_bound := 4, confidence_level := 19 / 20 }

lemma linearForecast_tsUp_eval : linearForecast tsUp 1 0 = [ptUp] := by
  have hfit : polyfit2 [0, 1, 2, 3] = ⟨0, 1, 0⟩ := by
    norm_num [polyfit2, idxPowSum, idxWeightedSum]
  have hr4 : round2 4 = 4 := round2_eq_self ⟨400, by norm_num⟩
  have hm4 : (0 : ℚ) ⊔ 4 = 4 := by rw [max_def]; norm_num
  simp [linearForecast, tsUp, tsValues, hfit, nextPeriods, lastPeriod, mkPoint,
    Poly2.eval, zScore, CONFIDENCE, List.range_succ, List.enum, List.enumFrom,
    periodSucc, List.getLastD, ptUp]
  norm_num [hr4, hm4]

/-- Witness for C9: the single trend point of the rising demo series
(which is also the sarima fallback input) has nonnegative predicted
price and lower bound. -/
theorem c9_nonneg_witness : 0 ≤ ptUp.predicted_price_m2 ∧ 0 ≤ ptUp.lower_bound :=
  c9_nonneg tsUp 1 none 0 ptUp
    (Or.inl (by rw [show (forecastModels tsUp 1 none 0).1 = linearForecast tsUp 1 0 from rfl,
      linearForecast_tsUp_eval]; exact List.mem_singleton.mpr rfl))

/-- A strictly falling 4-point series (perfect linear fit, zero
residuals) whose extrapolation is negative. -/
def tsDown : TimeSeries :=
  [(⟨2020, 1⟩, 3), (⟨2020, 2⟩, 2), (⟨2020, 3⟩, 1), (⟨2020, 4⟩, 0)]

/-- The point `_linear_forecast` emits for `tsDown` at horizon 1: the
raw prediction -1 is clamped to 0 while the upper bound stays -1. -/
def ptDown : ForecastPoint :=
  { year := 2021, quarter := 1, predicted_price_m2 := 0, lower_bound := 0,
    upper_bound := -1, confidence_level := 19 / 20 }

/-- C1 counterexample: for the falling series the residual variance is
exactly 0 (so numpy's sigma is exactly 0), the trend model emits exactly
`ptDown`, and `ptDown` violates predicted_price_m2 ≤ upper_bound: the
prediction was clamped to 0 but the unclamped upper bound is -1. -/
theorem c1_invariant_counterexample :
    sigmaSq (tsValues tsDown) = 0 ∧
    linearForecast tsDown 1 0 = [ptDown] ∧
    ¬ ptDown.predicted_price_m2 ≤ ptDown.upper_bound := by
  refine ⟨?_, ?_, by norm_num [ptDown]⟩
  · norm_num [tsDown, tsValues, sigmaSq, residuals, polyfit2, idxPowSum,
      idxWeightedSum, List.enum, Poly2.eval]
  · have hfit : polyfit2 [3, 2, 1, 0] = ⟨3, -1, 0⟩ := by
      norm_num [polyfit2, idxPowSum, idxWeightedSum]
    have hr0 : round2 0 = 0 := round2_eq_self ⟨0, by norm_num⟩
    have hrm1 : round2 (-1) = -1 := round2_eq_self ⟨-100, by norm_num⟩
    have hm : (0 : ℚ) ⊔ (-1) = 0 := by rw [max_def]; norm_num
    simp [linearForecast, tsDown, tsValues, hfit, nextPeriods, lastPeriod, mkPoint,
      Poly2.eval, zScore, CONFIDENCE, List.range_succ, List.enum, List.enumFrom,
      periodSucc, List.getLastD, ptDown]
    norm_num [hr0, hrm1, hm]

lemma mkPoint_invariant {p : Period} {pred lower upper conf : ℚ}
    (h1 : lower ≤ pred) (h2 : pred ≤ upper) (h3 : 0 ≤ upper) :
    (mkPoint p pred lower upper conf).lower_bound ≤
      (mkPoint p pred lower upper conf).predicted_price_m2 ∧
    (mkPoint p pred lower upper conf).predicted_price_m2 ≤
      (mkPoint p pred lower upper conf).upper_bound :=
  ⟨round2_mono (max_le_max le_rfl h1), round2_mono (max_le h3 h2)⟩

lemma linearForecast_mem_invariant {ts : TimeSeries} {h : ℕ} {sigma : ℚ}
    {pt : ForecastPoint} (hsig : 0 ≤ sigma)
    (hup : ∀ i : ℕ, i < h →
      0 ≤ (polyfit2 (tsValues ts)).eval ((ts.length : ℚ) + (i : ℚ)) + zScore * sigma)
    (hpt : pt ∈ linearForecast ts h sigma) :
    pt.lower_bound ≤ pt.predicted_price_m2 ∧
      pt.predicted_price_m2 ≤ pt.upper_bound := by
  rw [linearForecast_eq_map] at hpt
  obtain ⟨i, hi, rfl⟩ := List.mem_map.mp hpt
  have hi2 : i < h := List.mem_range.mp hi
  have hz : 0 ≤ zScore * sigma := mul_nonneg (by norm_num [zScore]) hsig
  exact mkPoint_invariant (by linarith) (by linarith) (hup i hi2)

lemma sarimaForecast_mem_invariant {ts : TimeSeries} {h : ℕ}
    {fit : Option SarimaNative} {sigma : ℚ} {pt : ForecastPoint}
    (hsig : 0 ≤ sigma)
    (hup : ∀ i : ℕ, i < h →
      0 ≤ (polyfit2 (tsValues ts)).eval ((ts.length : ℚ) + (i : ℚ)) + zScore * sigma)
    (hnat : ∀ r, fit = some r → ∀ i : ℕ, i < h →
      r.ciLower i ≤ r.means i ∧ r.means i ≤ r.ciUpper i ∧ 0 ≤ r.ciUpper i)
    (hpt : pt ∈ sarimaForecast ts h fit sigma) :
    pt.lower_bound ≤ pt.predicted_price_m2 ∧
      pt.predicted_price_m2 ≤ pt.upper_bound := by
  cases fit with
  | none => exact linearForecast_mem_invariant hsig hup hpt
  | some r =>
    rw [sarimaNative_eq_map] at hpt
    obtain ⟨i, hi, rfl⟩ := List.mem_map.mp hpt
    obtain ⟨n1, n2, n3⟩ := hnat r rfl i (List.mem_range.mp hi)
    exact mkPoint_invariant n1 n2 n3

lemma ensembleForecast_mem_invariant {l s : List ForecastPoint} {w : ℚ}
    (hw0 : 0 ≤ w) (hw1 : w ≤ 1)
    (hl : ∀ q ∈ l, q.lower_bound ≤ q.predicted_price_m2 ∧
      q.predicted_price_m2 ≤ q.upper_bound)
    (hs : ∀ q ∈ s, q.lower_bound ≤ q.predicted_price_m2 ∧
      q.predicted_price_m2 ≤ q.upper_bound)
    {pt : ForecastPoint} (hpt : pt ∈ ensembleForecast l s w) :
    pt.lower_bound ≤ pt.predicted_price_m2 ∧
      pt.predicted_price_m2 ≤ pt.upper_bound := by
  unfold ensembleForecast at hpt
  obtain ⟨ls, hmem, rfl⟩ := List.mem_map.mp hpt
  obtain ⟨h1, h2⟩ := List.of_mem_zip hmem
  obtain ⟨hl1, hl2⟩ := hl _ h1
  obtain ⟨hs1, hs2⟩ := hs _ h2
  have hw : (0 : ℚ) ≤ 1 - w := by linarith
  constructor
  · exact round2_mono
      (add_le_add (mul_le_mul_of_nonneg_left hl1 hw) (mul_le_mul_of_nonneg_left hs1 hw0))
  · exact round2_mono
      (add_le_add (mul_le_mul_of_nonneg_left hl2 hw) (mul_le_mul_of_nonneg_left hs2 hw0))

lemma forecastModels_sarima_mem_invariant {ts : TimeSeries} {h : ℕ}
    {fit : Option SarimaNative} {sigma : ℚ} {pt : ForecastPoint}
    (hsig : 0 ≤ sigma)
    (hup : ∀ i : ℕ, i < h →
      0 ≤ (polyfit2 (tsValues ts)).eval ((ts.length : ℚ) + (i : ℚ)) + zScore * sigma)
    (hnat : ∀ r, fit = some r → ∀ i : ℕ, i < h →
      r.ciLower i ≤ r.means i ∧ r.means i ≤ r.ciUpper i ∧ 0 ≤ r.ciUpper i)
    (hm : pt ∈ (forecastModels ts h fit sigma).2.1) :
    pt.lower_bound ≤ pt.predicted_price_m2 ∧
      pt.predicted_price_m2 ≤ pt.upper_bound := by
  by_cases h12 : MIN_POINTS_SARIMA ≤ ts.length
  · have hcomp : (forecastModels ts h fit sigma).2.1 = sarimaForecast ts h fit sigma := by
      unfold forecastModels; dsimp only; rw [if_pos h12]
    rw [hcomp] at hm
    exact sarimaForecast_mem_invariant hsig hup hnat hm
  · have hcomp : (forecastModels ts h fit sigma).2.1 = linearForecast ts h sigma := by
      unfold forecastModels; dsimp only; rw [if_neg h12]
    rw [hcomp] at hm
    exact linearForecast_mem_invariant hsig hup hm

/-- C1 amended: lower_bound ≤ predicted_price_m2 always holds, and
predicted_price_m2 ≤ upper_bound holds for every point of all three
models provided each raw (unclamped) upper bound is nonnegative — for
the trend model, prediction + z·sigma ≥ 0 at each horizon step; for a
native sarima fit, a well-formed interval with nonnegative upper end.
The counterexample shows the invariant fails exactly when a raw
prediction is negative enough that the unclamped upper bound is itself
negative. -/
theorem c1_bounds_invariant_amended (ts : TimeSeries) (h : ℕ)
    (fit : Option SarimaNative) (sigma : ℚ)
    (hsig : 0 ≤ sigma)
    (hup : ∀ i : ℕ, i < h →
      0 ≤ (polyfit2 (tsValues ts)).eval ((ts.length : ℚ) + (i : ℚ)) + zScore * sigma)
    (hnat : ∀ r, fit = some r → ∀ i : ℕ, i < h →
      r.ciLower i ≤ r.means i ∧ r.means i ≤ r.ciUpper i ∧ 0 ≤ r.ciUpper i)
    (pt : ForecastPoint)
    (hmem : pt ∈ (forecastModels ts h fit sigma).1 ∨
      pt ∈ (forecastModels ts h fit sigma).2.1 ∨
      pt ∈ (forecastModels ts h fit sigma).2.2) :
    pt.lower_bound ≤ pt.predicted_price_m2 ∧
      pt.predicted_price_m2 ≤ pt.upper_bound := by
  rcases hmem with hm | hm | hm
  · exact linearForecast_mem_invariant hsig hup hm
  · exact forecastModels_sarima_mem_invariant hsig hup hnat hm
  · have h22 : (forecastModels ts h fit sigma).2.2 =
        ensembleForecast (forecastModels ts h fit sigma).1
          (forecastModels ts h fit sigma).2.1 := rfl
    rw [h22] at hm
    refine ensembleForecast_mem_invariant (by norm_num) (by norm_num) ?_ ?_ hm
    · intro q hq
      exact linearForecast_mem_invariant hsig hup hq
    · intro q hq
      exact forecastModels_sarima_mem_invariant hsig hup hnat hq

/-- Witness for the amended C1 at the rising demo series: its single
trend point has lower ≤ predicted ≤ upper. -/
theorem c1_bounds_invariant_amended_witness :
    ptUp.lower_bound ≤ ptUp.predicted_price_m2 ∧
      ptUp.predicted_price_m2 ≤ ptUp.upper_bound :=
  c1_bounds_invariant_amended tsUp 1 none 0 le_rfl
    (by
      intro i hi
      interval_cases i
      norm_num [tsUp, tsValues, polyfit2, idxPowSum, idxWeightedSum, Poly2.eval, zScore])
    (fun r hr => nomatch hr) ptUp
    (Or.inl (by
      rw [show (forecastModels tsUp 1 none 0).1 = linearForecast tsUp 1 0 from rfl,
        linearForecast_tsUp_eval]
      exact List.mem_singleton.mpr rfl))

def c4lin : ForecastPoint :=
  { year := 2030, quarter := 1, predicted_price_m2 := 1 / 100, lower_bound := 0,
    upper_bound := 0, confidence_level := 19 / 20 }

def c4sar : ForecastPoint :=
  { year := 2030, quarter := 1, predicted_price_m2 := 0, lower_bound := 0,
    upper_bound := 0, confidence_level := 19 / 20 }

/-- C4 counterexample: with trend predicted 0.01 and seasonal predicted
0, the emitted ensemble predicted value is round2(0.0035) = 0, not the
exact weighted mean 0.0035 — the blend is rounded to two decimals. -/
theorem c4_weighted_mean_counterexample :
    (ensembleForecast [c4lin] [c4sar]).map ForecastPoint.predicted_price_m2 ≠
      [0.65 * c4sar.predicted_price_m2 + 0.35 * c4lin.predicted_price_m2] := by
  intro heq
  have hfield := congrArg (fun l => l.headD (37 : ℚ)) heq
  have hr : round2 ((1 - 0.65) * (1 / 100 : ℚ) + 0.65 * 0) = 0 := by
    norm_num [round2, rhe]
  simp [ensembleForecast, c4lin, c4sar, hr] at hfield
  norm_num [round2, rhe] at hfield

/-- C4 amended: each ensemble point's predicted, lower and upper equal
the weighted mean 0.65·seasonal + 0.35·trend of the corresponding
fields ROUNDED to two decimals (ties to even), and its year, quarter and
confidence_level are taken from the trend point. -/
theorem c4_ensemble_weighted_mean_amended (lin sar : List ForecastPoint)
    (hlen : lin.length = sar.length) (i : ℕ) (hi : i < lin.length) :
    (ensembleForecast lin sar)[i]? = some
      { year := (lin.get ⟨i, hi⟩).year
        quarter := (lin.get ⟨i, hi⟩).quarter
        predicted_price_m2 := round2 (0.65 * (sar.get ⟨i, hlen ▸ hi⟩).predicted_price_m2
          + 0.35 * (lin.get ⟨i, hi⟩).predicted_price_m2)
        lower_bound := round2 (0.65 * (sar.get ⟨i, hlen ▸ hi⟩).lower_bound
          + 0.35 * (lin.get ⟨i, hi⟩).lower_bound)
        upper_bound := round2 (0.65 * (sar.get ⟨i, hlen ▸ hi⟩).upper_bound
          + 0.35 * (lin.get ⟨i, hi⟩).upper_bound)
        confidence_level := (lin.get ⟨i, hi⟩).confidence_level } := by
  have hs : i < sar.length := hlen ▸ hi
  have hzi : i < (lin.zip sar).length := by
    rw [List.length_zip]; exact lt_min hi hs
  unfold ensembleForecast
  rw [List.getElem?_map, List.getElem?_eq_getElem hzi]
  have harg : ∀ a b : ℚ, (1 - (0.65 : ℚ)) * a + 0.65 * b = 0.65 * b + 0.35 * a := by
    intro a b; ring
  simp [List.getElem_zip, List.get_eq_getElem, harg]

/-- Witness for the amended C4 at the concrete one-point sequences. -/
theorem c4_ensemble_weighted_mean_amended_witness :
    (ensembleForecast [c4lin] [c4sar])[0]? = some
      { year := c4lin.year
        quarter := c4lin.quarter
        predicted_price_m2 := round2 (0.65 * c4sar.predicted_price_m2
          + 0.35 * c4lin.predicted_price_m2)
        lower_bound := round2 (0.65 * c4sar.lower_bound + 0.35 * c4lin.lower_bound)
        upper_bound := round2 (0.65 * c4sar.upper_bound + 0.35 * c4lin.upper_bound)
        confidence_level := c4lin.confidence_level } :=
  c4_ensemble_weighted_mean_amended [c4lin] [c4sar] rfl 0 (by norm_num)

def pt8 : ForecastPoint :=
  { year := 2030, quarter := 1, predicted_price_m2 := 1 / 8, lower_bound := 1 / 8,
    upper_bound := 1 / 8, confidence_level := 19 / 20 }

/-- C8 counterexample: blending a point with itself re-rounds each
field; for predicted = 0.125 the blend is exactly 0.125 but the emitted
value is round2(0.125) = 0.12, so the output differs from the input. -/
theorem c8_ensemble_idempotent_counterexample :
    ensembleForecast [pt8] [pt8] ≠ [pt8] := by
  intro heq
  have hfield := congrArg (fun l => (l.headD c4lin).predicted_price_m2) heq
  have harg : (1 - (0.65 : ℚ)) * (1 / 8) + 0.65 * (1 / 8) = 1 / 8 := by norm_num
  simp [ensembleForecast, pt8, harg] at hfield
  norm_num [round2, rhe] at hfield

/-- C8 amended: the ensemble of two identical sequences equals that
sequence whenever every numeric field of every point is a two-decimal
value (as is the case for every model-emitted point); in general the
blend re-rounds each field to two decimals. -/
theorem c8_ensemble_idempotent_amended (s : List ForecastPoint)
    (hs : ∀ q ∈ s, TwoDecimal q.predicted_price_m2 ∧ TwoDecimal q.lower_bound ∧
      TwoDecimal q.upper_bound) :
    ensembleForecast s s = s := by
  unfold ensembleForecast
  have hzip : s.zip s = s.map (fun a => (a, a)) := by
    simpa using List.zip_map' id id s
  rw [hzip, List.map_map]
  conv_rhs => rw [← List.map_id s]
  apply List.map_congr_left
  intro a ha
  obtain ⟨hp, hl, hu⟩ := hs a ha
  simp only [Function.comp, List.map_id]
  have e1 : (1 - (0.65 : ℚ)) * a.predicted_price_m2 + 0.65 * a.predicted_price_m2
      = a.predicted_price_m2 := by ring
  have e2 : (1 - (0.65 : ℚ)) * a.lower_bound + 0.65 * a.lower_bound = a.lower_bound := by
    ring
  have e3 : (1 - (0.65 : ℚ)) * a.upper_bound + 0.65 * a.upper_bound = a.upper_bound := by
    ring
  rw [e1, e2, e3, round2_eq_self hp, round2_eq_self hl, round2_eq_self hu]
  rfl

/-- Witness for the amended C8: the single-point sequence with
two-decimal fields blends to itself. -/
theorem c8_ensemble_idempotent_amended_witness :
    ensembleForecast [ptUp] [ptUp] = [ptUp] :=
  c8_ensemble_idempotent_amended [ptUp] (by
    intro q hq
    rw [List.mem_singleton] at hq
    subst hq
    exact ⟨⟨400, by norm_num [ptUp]⟩, ⟨400, by norm_num [ptUp]⟩,
      ⟨400, by norm_num [ptUp]⟩⟩)

lemma countP_updateFirst {α : Type} (p q : α → Bool) (f : α → α)
    (hf : ∀ x, q (f x) = q x) (l : List α) :
    (updateFirst p f l).countP q = l.countP q := by
  induction l with
  | nil => rfl
  | cons x xs ih =>
    unfold updateFirst
    by_cases hp : p x
    · simp [hp, List.countP_cons, hf]
    · simp [hp, List.countP_cons, ih]

lemma length_updateFirst {α : Type} (p : α → Bool) (f : α → α) (l : List α) :
    (updateFirst p f l).length = l.length := by
  induction l with
  | nil => rfl
  | cons x xs ih =>
    unfold updateFirst
    by_cases hp : p x <;> simp [hp, ih]

lemma updateFirst_mem_of_any {α : Type} {p : α → Bool} (f : α → α) {l : List α}
    (h : l.any p = true) :
    ∃ x, p x = true ∧ f x ∈ updateFirst p f l := by
  induction l with
  | nil => simp at h
  | cons a as ih =>
    unfold updateFirst
    by_cases hp : p a
    · exact ⟨a, hp, by simp [hp]⟩
    · have h2 : as.any p = true := by
        rw [List.any_cons] at h
        simpa [hp] using h
      obtain ⟨x, hx, hmem⟩ := ih h2
      exact ⟨x, hx, by simp [hp, hmem]⟩

/-- The uniqueness invariant backed by the `uq_forecast` constraint: at
most one stored forecast row per (district, model, year, quarter). -/
def UniqueKeys (db : DB) : Prop :=
  ∀ (did : ℕ) (m : String) (y q : ℕ),
    db.price_forecasts.countP (keyMatch did m y q) ≤ 1

lemma keyMatch_update (did' : ℕ) (m' : String) (y' q' : ℕ)
    (row : ForecastPoint) (now : ℕ) (r : ForecastRow) :
    keyMatch did' m' y' q'
      { r with
        predicted_price_m2 := row.predicted_price_m2
        lower_bound := row.lower_bound
        upper_bound := row.upper_bound
        generated_at := now } = keyMatch did' m' y' q' r := by
  simp [keyMatch]

lemma saveForecast_unique {db : DB} (h : UniqueKeys db) (did : ℕ) (m : String)
    (row : ForecastPoint) (now : ℕ) :
    UniqueKeys (saveForecast db did m row now) := by
  intro did' m' y' q'
  unfold saveForecast
  dsimp only
  by_cases hany : db.price_forecasts.any (keyMatch did m row.year row.quarter)
  · rw [if_pos hany]
    dsimp only
    rw [countP_updateFirst _ _ _ (fun r => keyMatch_update did' m' y' q' row now r)]
    exact h did' m' y' q'
  · rw [if_neg hany]
    dsimp only
    rw [List.countP_append]
    by_cases hq : keyMatch did' m' y' q'
        { district_id := did, model_name := m, forecast_year := row.year,
          forecast_quarter := row.quarter,
          predicted_price_m2 := row.predicted_price_m2,
          lower_bound := row.lower_bound, upper_bound := row.upper_bound,
          confidence_level := row.confidence_level, generated_at := now } = true
    · have hkeys : ((did = did' ∧ m = m') ∧ row.year = y') ∧ row.quarter = q' := by
        simpa [keyMatch] using hq
      obtain ⟨⟨⟨rfl, rfl⟩, h3⟩, h4⟩ := hkeys
      rw [← h3, ← h4]
      have hzero : db.price_forecasts.countP (keyMatch did m row.year row.quarter) = 0 :=
        List.countP_eq_zero.mpr (List.any_eq_false.mp (Bool.not_eq_true _ ▸ hany))
      rw [hzero, Nat.zero_add]
      exact le_trans (List.countP_le_length _) (by simp)
    · have hone : List.countP (keyMatch did' m' y' q')
          [({ district_id := did, model_name := m, forecast_year := row.year,
              forecast_quarter := row.quarter,
              predicted_price_m2 := row.predicted_price_m2,
              lower_bound := row.lower_bound, upper_bound := row.upper_bound,
              confidence_level := row.confidence_level, generated_at := now } :
            ForecastRow)] = 0 := by
        simp [List.countP_cons, hq]
      rw [hone]
      simpa using h did' m' y' q'

/-- One persistence call per entry: (district_id, model_name, point,
timestamp), folded left like the nested persistence loops. -/
def applySaves (db : DB) (ops : List (ℕ × String × ForecastPoint × ℕ)) : DB :=
  ops.foldl (fun a op => saveForecast a op.1 op.2.1 op.2.2.1 op.2.2.2) db

lemma applySaves_unique {db : DB} (h : UniqueKeys db)
    (ops : List (ℕ × String × ForecastPoint × ℕ)) :
    UniqueKeys (applySaves db ops) := by
  induction ops generalizing db with
  | nil => exact h
  | cons op rest ih =>
    exact ih (saveForecast_unique h op.1 op.2.1 op.2.2.1 op.2.2.2)

lemma saveForecast_overwrite (db : DB) (did : ℕ) (m : String)
    (row : ForecastPoint) (now : ℕ)
    (hany : db.price_forecasts.any (keyMatch did m row.year row.quarter) = true) :
    (saveForecast db did m row now).price_forecasts.length =
      db.price_forecasts.length ∧
    ∃ r ∈ (saveForecast db did m row now).price_forecasts,
      keyMatch did m row.year row.quarter r = true ∧
      r.predicted_price_m2 = row.predicted_price_m2 ∧
      r.lower_bound = row.lower_bound ∧
      r.upper_bound = row.upper_bound ∧
      r.generated_at = now := by
  unfold saveForecast
  dsimp only
  rw [if_pos hany]
  dsimp only
  refine ⟨length_updateFirst _ _ _, ?_⟩
  obtain ⟨x, hx, hmem⟩ := updateFirst_mem_of_any _ hany
  refine ⟨_, hmem, ?_, rfl, rfl, rfl, rfl⟩
  rw [keyMatch_update]
  exact hx

/-- C7: starting from storage satisfying the per-key uniqueness backed
by `uq_forecast`, any sequence of `_save_forecast` calls preserves it —
regeneration never inserts a duplicate — and whenever a row with the
(district, model, year, quarter) key already exists, the save keeps the
row count unchanged and some stored row with that key carries the new
numeric fields and the refreshed generation timestamp. -/
theorem c7_upsert_unique (db : DB) (hdb : UniqueKeys db)
    (ops : List (ℕ × String × ForecastPoint × ℕ)) :
    UniqueKeys (applySaves db ops) ∧
    (∀ (did : ℕ) (m : String) (row : ForecastPoint) (now : ℕ),
      db.price_forecasts.any (keyMatch did m row.year row.quarter) = true →
      (saveForecast db did m row now).price_forecasts.length =
        db.price_forecasts.length ∧
      ∃ r ∈ (saveForecast db did m row now).price_forecasts,
        keyMatch did m row.year row.quarter r = true ∧
        r.predicted_price_m2 = row.predicted_price_m2 ∧
        r.lower_bound = row.lower_bound ∧
        r.upper_bound = row.upper_bound ∧
        r.generated_at = now) :=
  ⟨applySaves_unique hdb ops,
   fun did m row now hany => saveForecast_overwrite db did m row now hany⟩

def db7 : DB :=
  { districts := [⟨1, "01"⟩]
    sale_prices := []
    price_forecasts :=
      [{ district_id := 1, model_name := "ensemble", forecast_year := 2025,
         forecast_quarter := 1, predicted_price_m2 := 1, lower_bound := 0,
         upper_bound := 2, confidence_level := 19 / 20, generated_at := 0 }] }

def pt7 : ForecastPoint :=
  { year := 2025, quarter := 1, predicted_price_m2 := 9, lower_bound := 8,
    upper_bound := 10, confidence_level := 19 / 20 }

/-- Witness for C7: regenerating the already-stored (1, ensemble,
2025Q1) point keeps at most one row per key and does not change the row
count. -/
theorem c7_upsert_unique_witness :
    (applySaves db7 [(1, "ensemble", pt7, 5)]).price_forecasts.countP
      (keyMatch 1 "ensemble" 2025 1) ≤ 1 ∧
    (saveForecast db7 1 "ensemble" pt7 5).price_forecasts.length =
      db7.price_forecasts.length :=
  ⟨(c7_upsert_unique db7
      (fun did m y q => le_trans (List.countP_le_length _) (by norm_num [db7]))
      [(1, "ensemble", pt7, 5)]).1 1 "ensemble" 2025 1,
   ((c7_upsert_unique db7
      (fun did m y q => le_trans (List.countP_le_length _) (by norm_num [db7]))
      [(1, "ensemble", pt7, 5)]).2 1 "ensemble" pt7 5 (by decide)).1⟩

/-- Two districts: district 1 (whose persistence will fail) and
district 2 with a forecastable 4-point series. -/
def db2c : DB :=
  { districts := [⟨1, "01"⟩, ⟨2, "02"⟩]
    sale_prices :=
      [{ district_id := 2, property_type := "all", year := 2020, quarter := 1, price_per_m2 := 0 },
       { district_id := 2, property_type := "all", year := 2020, quarter := 2, price_per_m2 := 1 },
       { district_id := 2, property_type := "all", year := 2020, quarter := 3, price_per_m2 := 2 },
       { district_id := 2, property_type := "all", year := 2020, quarter := 4, price_per_m2 := 3 }]
    price_forecasts := [] }

lemma forecastLoop_error (persistFails : ℕ → Bool) (periods : ℕ)
    (fits : ℕ → Option SarimaNative) (sigmas : ℕ → ℚ) (now : ℕ)
    (ds : List DistrictRow) (db : DB)
    (hfail : ∃ d ∈ ds, persistFails d.id = true) :
    forecastLoop persistFails periods fits sigmas now db ds = Except.error () := by
  induction ds generalizing db with
  | nil => simp at hfail
  | cons d rest ih =>
    unfold forecastLoop forecastDistrictStep
    by_cases hd : persistFails d.id
    · rw [if_pos hd]
    · rw [if_neg hd]
      have hrest : ∃ x ∈ rest, persistFails x.id = true := by
        obtain ⟨x, hx, hpx⟩ := hfail
        rcases List.mem_cons.mp hx with rfl | hx2
        · exact absurd hpx (by simpa using hd)
        · exact ⟨x, hx2, hpx⟩
      rcases hpr : forecastDistrictDB db d periods (fits d.id) (sigmas d.id) now
        with ⟨db1, rows⟩
      dsimp only
      rw [ih db1 hrest]

/-- C2 counterexample: with two districts where forecasting the first
raises a persistence failure and the second has a forecastable 4-point
series, the bulk run returns an error with the whole shared session
rolled back — the second district's results are never committed — even
though forecasting the second district alone would produce a nonempty
ensemble. -/
theorem c2_bulk_isolation_counterexample :
    forecastAllDistricts (fun did => did == 1) db2c 1 (fun _ => none) (fun _ => 0) 0 =
      Except.error () ∧
    (forecastDistrictDB db2c ⟨2, "02"⟩ 1 none 0 0).2 ≠ [] := by
  constructor
  · rfl
  · have hlen4 : (loadTimeSeries db2c 2).length = 4 := by decide
    have h2 : (forecastDistrictDB db2c ⟨2, "02"⟩ 1 none 0 0).2.length = 1 := by
      unfold forecastDistrictDB
      dsimp only
      rw [if_neg (by rw [hlen4]; omega)]
      dsimp only
      simp [forecastModels, MIN_POINTS_SARIMA, hlen4, ensembleForecast,
        List.length_zip, length_linearForecast]
    intro hc
    rw [hc] at h2
    simp at h2

/-- C2 amended: `forecast_all_districts` runs all districts sequentially
inside one shared session with no per-district error handling; if
forecasting any district raises, the whole bulk call raises and the
session rolls back — no district's results are committed.  Per-district
isolation does not hold. -/
theorem c2_bulk_shared_transaction_amended (persistFails : ℕ → Bool) (db : DB)
    (periods : ℕ) (fits : ℕ → Option SarimaNative) (sigmas : ℕ → ℚ) (now : ℕ)
    (hfail : ∃ d ∈ db.districts, persistFails d.id = true) :
    forecastAllDistricts persistFails db periods fits sigmas now =
      Except.error () :=
  forecastLoop_error persistFails periods fits sigmas now db.districts db hfail

def db2w : DB :=
  { districts := [⟨1, "01"⟩], sale_prices := [], price_forecasts := [] }

/-- Witness for the amended C2: a database whose single district fails
persistence makes the bulk call error out. -/
theorem c2_bulk_shared_transaction_amended_witness :
    forecastAllDistricts (fun did => did == 1) db2w 1 (fun _ => none) (fun _ => 0) 0 =
      Except.error () :=
  c2_bulk_shared_transaction_amended (fun did => did == 1) db2w 1
    (fun _ => none) (fun _ => 0) 0 ⟨⟨1, "01"⟩, by simp [db2w], rfl⟩
